import Mathlib

/-!
Shallow embedding of the emotion-aware response pipeline of the
sadeem-rag-chatbot backend: `emotion_detector.py` (local HF classifier,
Gemini remote fallback, orchestration), `emotion_response_adapter.py`
(tone adapter with the per-session frustration tracker), and the
combined-generation parser inside `ResponseGenerator.generate` of `app.py`.

Python floats are modelled as rationals, Python dicts over the fixed label
set as insertion-ordered association lists, and string primitives are
re-implemented over `String.data` character lists so that every definition
evaluates by kernel reduction.
-/

namespace Sadeem

/-! ## String primitives (Python semantics, over character lists) -/

/-- Python `str.strip()`: drop whitespace from both ends. -/
def pyStrip (s : String) : String :=
  String.mk (((s.data.dropWhile Char.isWhitespace).reverse.dropWhile
    Char.isWhitespace).reverse)

/-- Python `s[n:]` on character positions (used for `line.split(':', 1)[1]`
after a marker check, where the first colon is the marker's). -/
def pyDrop (s : String) (n : Nat) : String :=
  String.mk (s.data.drop n)

/-- Whether `pre` is an initial run of `l`. -/
def listIsPre : List Char → List Char → Bool
  | [], _ => true
  | _ :: _, [] => false
  | a :: as, b :: bs => a == b && listIsPre as bs

/-- Python `s.startswith(pre)`. -/
def pyStartsWith (s pre : String) : Bool :=
  listIsPre pre.data s.data

/-- Split a character list at every occurrence of `sep` (Python
`str.split(sep)` semantics: empty pieces are kept). -/
def splitOnChar (sep : Char) : List Char → List (List Char)
  | [] => [[]]
  | c :: rest =>
      match splitOnChar sep rest with
      | [] => [[]]
      | h :: t => if c = sep then [] :: h :: t else (c :: h) :: t

/-- Python `s.split('\n')`. -/
def pyLines (s : String) : List String :=
  (splitOnChar '\n' s.data).map String.mk

/-- Numeric value of a digit run. -/
def digitsVal (l : List Char) : Nat :=
  l.foldl (fun a c => a * 10 + (c.toNat - 48)) 0

/-- Models the plain-decimal fragment of Python `float(...)`: an optional
sign, then digits with an optional decimal point (`"5"`, `"5."`, `".5"`,
`"0.85"`). Exponents, `inf`/`nan` and every other spelling are rejected
(`none`), as is any malformed string — Python raises `ValueError` there and
the callers' `except` branches are modelled on `none`. -/
def parseFloat? (s : String) : Option ℚ :=
  let signed : ℚ × List Char :=
    match s.data with
    | '-' :: rest => (-1, rest)
    | '+' :: rest => (1, rest)
    | l => (1, l)
  match splitOnChar '.' signed.2 with
  | [ip] =>
      if ip ≠ [] ∧ ip.all Char.isDigit then
        some (signed.1 * (digitsVal ip : ℚ))
      else none
  | [ip, fp] =>
      if (ip ≠ [] ∨ fp ≠ []) ∧ ip.all Char.isDigit ∧ fp.all Char.isDigit then
        some (signed.1 * ((digitsVal ip : ℚ) +
          (digitsVal fp : ℚ) / ((10 ^ fp.length : ℕ) : ℚ)))
      else none
  | _ => none

/-- Membership of `p` as a contiguous run of `l`
(Python `p in s` on strings). -/
def listHasSub (l p : List Char) : Bool :=
  (List.range (l.length + 1)).any (fun i => listIsPre p (l.drop i))

/-- Python `pat in s.lower()` for a lowercase literal `pat`. -/
def containsLower (s pat : String) : Bool :=
  listHasSub (s.data.map Char.toLower) pat.data

/-- Python `len(s.split())`: the number of maximal non-whitespace runs. -/
def wordCountAux : List Char → Bool → Nat
  | [], _ => 0
  | c :: rest, inWord =>
      if c.isWhitespace then wordCountAux rest false
      else (if inWord then 0 else 1) + wordCountAux rest true

/-- Python `len(s.split())`. -/
def pyWordCount (s : String) : Nat :=
  wordCountAux s.data false

/-! ## `emotion_detector.py`: data model and the local HF classifier -/

/-- `EmotionDetector.TARGET_EMOTIONS`. -/
def TARGET_EMOTIONS : List String :=
  ["Happy", "Neutral", "Confused", "Frustrated", "Sad"]

/-- `EmotionDetector.EMOTION_MAPPING.get(original_label, 'Neutral')`
(line 128): the fixed 7→5 remap table with default `Neutral`. -/
def EMOTION_MAPPING (l : String) : String :=
  if l = "joy" then "Happy"
  else if l = "neutral" then "Neutral"
  else if l = "surprise" then "Confused"
  else if l = "anger" then "Frustrated"
  else if l = "sadness" then "Sad"
  else if l = "fear" then "Confused"
  else if l = "disgust" then "Frustrated"
  else "Neutral"

/-- The result dict `{'label': …, 'confidence': …, 'scores': …}` returned by
every detector path; `scores` keeps the dict's insertion order. -/
structure EmotionResult where
  label : String
  confidence : ℚ
  scores : List (String × ℚ)
deriving DecidableEq, Repr

/-- `EmotionDetector._default_emotion`. -/
def default_emotion : EmotionResult :=
  ⟨"Neutral", 1,
    [("Happy", 0), ("Neutral", 1), ("Confused", 0), ("Frustrated", 0), ("Sad", 0)]⟩

/-- The accumulated score of one target label after the
`emotion_scores[target_emotion] += score` loop (lines 121-129). -/
def rawScore (preds : List (String × ℚ)) (t : String) : ℚ :=
  ((preds.filter (fun p => EMOTION_MAPPING p.1 = t)).map Prod.snd).sum

/-- The accumulated 5-way score dict, keys in insertion order. -/
def rawScores (preds : List (String × ℚ)) : List (String × ℚ) :=
  TARGET_EMOTIONS.map (fun t => (t, rawScore preds t))

/-- `total = sum(emotion_scores.values())` (line 132). -/
def totalScore (preds : List (String × ℚ)) : ℚ :=
  ((rawScores preds).map Prod.snd).sum

/-- Lines 132-134: divide by the total when it is positive, otherwise leave
the accumulated dict untouched. -/
def normScores (preds : List (String × ℚ)) : List (String × ℚ) :=
  if 0 < totalScore preds then
    (rawScores preds).map (fun p => (p.1, p.2 / totalScore preds))
  else rawScores preds

/-- The value one target label carries in the dict produced by lines
132-134: renormalized when the total is positive, the raw accumulation
otherwise. -/
def normValue (preds : List (String × ℚ)) (t : String) : ℚ :=
  if 0 < totalScore preds then rawScore preds t / totalScore preds
  else rawScore preds t

/-- Python `max(items, key=lambda x: x[1])` over a non-empty list presented
as head and tail: strict comparison, so the first maximal item wins. -/
def argmaxBySnd (h : String × ℚ) (t : List (String × ℚ)) : String × ℚ :=
  t.foldl (fun best p => if best.2 < p.2 then p else best) h

/-- `EmotionDetector._detect_with_hf_model`, as a pure function of the
pipeline's native `(label, score)` predictions. -/
def detect_with_hf_model (preds : List (String × ℚ)) : EmotionResult :=
  let scores := normScores preds
  let dom := argmaxBySnd (scores.headD ("Neutral", 0)) scores.tail
  ⟨dom.1, dom.2, scores⟩

/-! ## `emotion_detector.py`: the Gemini remote fallback and the orchestrator -/

/-- One iteration of `_detect_with_gemini`'s parse loop (lines 177-184) on the
`(emotion_label, confidence)` state: an `EMOTION:` line overwrites the label
with the stripped remainder after the first colon, a `CONFIDENCE:` line
overwrites the confidence with the parsed float or `0.5` on parse failure,
any other line is ignored. -/
def geminiStep (st : String × ℚ) (line : String) : String × ℚ :=
  if pyStartsWith line "EMOTION:" then (pyStrip (pyDrop line 8), st.2)
  else if pyStartsWith line "CONFIDENCE:" then
    (st.1,
      match parseFloat? (pyStrip (pyDrop line 11)) with
      | some x => x
      | none => 1 / 2)
  else st

/-- The `(emotion_label, confidence)` pair `_detect_with_gemini` holds after
its line loop, before label validation: initial state `('Neutral', 0.5)`
(lines 174-175), then the loop over the lines of the stripped reply. -/
def geminiRawParse (reply : String) : String × ℚ :=
  (pyLines (pyStrip reply)).foldl geminiStep ("Neutral", 1 / 2)

/-- `_detect_with_gemini`'s result as a function of the Gemini reply text:
validate the label against the 5-set, forcing unknown labels to `Neutral`
(lines 187-189), then the degenerate distribution `{e: (1-c)/4}` with the
dominant label overwritten to `c` (lines 192-193). -/
def parseGeminiReply (reply : String) : EmotionResult :=
  let st := geminiRawParse reply
  let label := if st.1 ∈ TARGET_EMOTIONS then st.1 else "Neutral"
  ⟨label, st.2,
    TARGET_EMOTIONS.map (fun e => (e, if e = label then st.2 else (1 - st.2) / 4))⟩

/-- The constructor-time configuration of `EmotionDetector`:
`use_gemini_fallback`, `confidence_threshold`, and whether
`emotion_pipeline` / `gemini_model` ended up non-`None` after `__init__`. -/
structure DetectorConfig where
  useGeminiFallback : Bool
  confidenceThreshold : ℚ
  pipelineLoaded : Bool
  geminiLoaded : Bool

/-- `EmotionDetector._detect_with_gemini`: `none` when `gemini_model` is not
set or the remote call fails (`remoteReply = none`; the internal `except`
returns Python `None`), otherwise the parsed reply. -/
def detect_with_gemini (cfg : DetectorConfig) (remoteReply : Option String) :
    Option EmotionResult :=
  if cfg.geminiLoaded then remoteReply.map parseGeminiReply else none

/-- `EmotionDetector.detect_emotion`. `hfPreds = none` models the HF pipeline
call raising (caught at line 102); `remoteReply = none` models the remote call
failing. A result of `none` models the Python `None` that escapes through
`return self._detect_with_gemini(...)` at line 108. -/
def detect_emotion (cfg : DetectorConfig) (userMessage : String)
    (hfPreds : Option (List (String × ℚ))) (remoteReply : Option String) :
    Option EmotionResult :=
  if pyStrip userMessage = "" then some default_emotion
  else
    let geminiBlock : Option EmotionResult :=
      if cfg.useGeminiFallback ∧ cfg.geminiLoaded then
        detect_with_gemini cfg remoteReply
      else some default_emotion
    if cfg.pipelineLoaded then
      match hfPreds with
      | some preds =>
          let result := detect_with_hf_model preds
          if result.confidence < cfg.confidenceThreshold ∧ cfg.useGeminiFallback then
            match detect_with_gemini cfg remoteReply with
            | some g => some g
            | none => some result
          else some result
      | none => geminiBlock
    else geminiBlock

/-! ## `app.py`: the combined-generation parser of `ResponseGenerator.generate` -/

/-- The Arabic→English emotion label map of `ResponseGenerator.generate`
(lines 316-320), applied with `emotion_map.get(label, label)`. -/
def arabicEmotionMap (l : String) : String :=
  if l = "سعيد" then "Happy"
  else if l = "محايد" then "Neutral"
  else if l = "مرتبك" then "Confused"
  else if l = "محبط" then "Frustrated"
  else if l = "حزين" then "Sad"
  else l

/-- The parse state `(response_text, emotion_label, emotion_confidence)`
of `ResponseGenerator.generate`. -/
structure CombinedParseState where
  response : String
  label : String
  confidence : ℚ
deriving DecidableEq, Repr

/-- One iteration of the parse loop in `ResponseGenerator.generate`
(lines 312-329): `EMOTION:` sets the label through the Arabic map (with no
validation against the 5-set); `CONFIDENCE:` sets the confidence, `0.5` on
float-parse failure; `RESPONSE:` restarts the response accumulator with the
stripped remainder; any other line is appended to the response only when the
accumulator is non-empty (Python truthiness of `response_text`). -/
def combinedStep (st : CombinedParseState) (line : String) : CombinedParseState :=
  if pyStartsWith line "EMOTION:" then
    { st with label := arabicEmotionMap (pyStrip (pyDrop line 8)) }
  else if pyStartsWith line "CONFIDENCE:" then
    { st with confidence :=
        match parseFloat? (pyStrip (pyDrop line 11)) with
        | some x => x
        | none => 1 / 2 }
  else if pyStartsWith line "RESPONSE:" then
    { st with response := pyStrip (pyDrop line 9) }
  else if st.response ≠ "" then
    { st with response := st.response ++ "\n" ++ line }
  else st

/-- The parsing section of `ResponseGenerator.generate`: defaults
`emotion_label = 'Neutral'`, `emotion_confidence = 0.0` (lines 242-243), the
line loop over the stripped reply (lines 311-329), then the fallback to the
whole stripped text when the accumulated response is empty (lines 331-333). -/
def combinedParse (raw : String) : CombinedParseState :=
  let t := pyStrip raw
  let st := (pyLines t).foldl combinedStep ⟨"", "Neutral", 0⟩
  if st.response = "" then { st with response := t } else st

/-! ## `emotion_response_adapter.py`: the tone adapter -/

/-- `self.frustration_tracker.get(sid, 0)` over the dict modelled as an
insertion-ordered association list. -/
def trackerGet : List (String × Nat) → String → Nat
  | [], _ => 0
  | p :: rest, sid => if p.1 = sid then p.2 else trackerGet rest sid

/-- `self.frustration_tracker[sid] = n`: dict update — replace the existing
binding in place, otherwise append a new one. -/
def trackerSet : List (String × Nat) → String → Nat → List (String × Nat)
  | [], sid, n => [(sid, n)]
  | p :: rest, sid, n =>
      if p.1 = sid then (sid, n) :: rest else p :: trackerSet rest sid n

/-- `EmotionResponseAdapter.reset_frustration_tracker`: delete the session's
binding when present. -/
def reset_frustration_tracker (t : List (String × Nat)) (sid : String) :
    List (String × Nat) :=
  t.filter (fun p => p.1 ≠ sid)

/-- `EmotionResponseAdapter.get_frustration_level`. -/
def get_frustration_level (t : List (String × Nat)) (sid : String) : Nat :=
  trackerGet t sid

/-- The state effect of `_get_emotion_prompt` (lines 156-164): when the
emotion is `Frustrated` and the context carries a truthy session id,
increment that session's counter. The prompt strings themselves only feed
the remote LLM, which is an oracle of the model, so only the tracker update
is embedded. -/
def getEmotionPromptTracker (emotion : String) (sessionId : Option String)
    (t : List (String × Nat)) : List (String × Nat) :=
  if emotion = "Frustrated" then
    match sessionId with
    | some sid =>
        if sid ≠ "" then trackerSet t sid (trackerGet t sid + 1) else t
    | none => t
  else t

/-- The fixed clarifying-question variants of `_add_emotion_enhancements`
(lines 179-183). -/
def clarifyingQuestions : List String :=
  ["\n\nDoes this help clarify things, or would you like me to explain any specific part in more detail?",
   "\n\nIs there a specific aspect you'd like me to break down further?",
   "\n\nDo you have any questions about these steps?"]

/-- The escalation offer sentence of `_add_emotion_enhancements` (line 193). -/
def escalationOffer : String :=
  "\n\nIf you'd prefer, I can provide contact information for our customer service team who can assist you directly."

/-- The reassurance sentence of `_add_emotion_enhancements` (line 198). -/
def sadEncouragement : String :=
  " I'm here to help make this easier for you."

/-- `EmotionResponseAdapter._add_emotion_enhancements` (lines 168-200).
The context dict is collapsed to the session id it may carry
(`none` = no context or no `session_id` key). -/
def add_emotion_enhancements (answer : String) (emotion : String)
    (userMessage : String) (sessionId : Option String)
    (t : List (String × Nat)) : String :=
  let a1 :=
    if emotion = "Confused" ∧ ¬ answer.data.contains '?' then
      answer ++ clarifyingQuestions.getD
        (userMessage.data.length % clarifyingQuestions.length) ""
    else answer
  let a2 :=
    if emotion = "Frustrated" then
      match sessionId with
      | some sid =>
          if sid ≠ "" ∧ 2 ≤ trackerGet t sid then
            if ¬ containsLower a1 "contact" ∧ ¬ containsLower a1 "representative" then
              a1 ++ escalationOffer
            else a1
          else a1
      | none => a1
    else a1
  if emotion = "Sad" ∧ 20 < pyWordCount a2 then
    if ¬ (containsLower a2 "help" ∨ containsLower a2 "here" ∨ containsLower a2 "support") then
      a2 ++ sadEncouragement
    else a2
  else a2

/-- `EmotionResponseAdapter._simple_emotion_prefix`. -/
def simpleEmotionPrefixText (emotion : String) : String :=
  if emotion = "Happy" then "Great to hear from you! "
  else if emotion = "Neutral" then ""
  else if emotion = "Confused" then "Let me help clarify that. "
  else if emotion = "Frustrated" then "I understand this is frustrating. "
  else if emotion = "Sad" then "I'm sorry you're experiencing this. "
  else ""

/-- The adapter's observable output: the adapted text and the tracker state
it leaves behind. -/
structure AdapterOutput where
  text : String
  tracker : List (String × Nat)
deriving DecidableEq, Repr

/-- `EmotionResponseAdapter.adjust_response_based_on_emotion`. `hasModel` is
`self.gemini_model` being set; `rewrite = some a` models `generate_content`
returning a reply whose stripped text is `a`, `rewrite = none` models it
raising — caught at line 97, after `_get_emotion_prompt` already updated the
tracker, so the fallback prefix path keeps the increment. -/
def adjust_response_based_on_emotion (hasModel : Bool) (emotion : String)
    (baseAnswer : String) (userMessage : String) (sessionId : Option String)
    (rewrite : Option String) (t : List (String × Nat)) : AdapterOutput :=
  if ¬ hasModel then ⟨baseAnswer, t⟩
  else
    let t2 := getEmotionPromptTracker emotion sessionId t
    match rewrite with
    | none => ⟨simpleEmotionPrefixText emotion ++ baseAnswer, t2⟩
    | some adapted =>
        ⟨add_emotion_enhancements adapted emotion userMessage sessionId t2, t2⟩

/-! ## Helper lemmas -/

/-- A string all of whose characters are whitespace strips to the empty
string. -/
theorem pyStrip_eq_empty (s : String) (h : s.data.all Char.isWhitespace = true) :
    pyStrip s = "" := by
  unfold pyStrip
  have h1 : s.data.dropWhile Char.isWhitespace = [] :=
    List.dropWhile_eq_nil_iff.mpr (List.all_eq_true.mp h)
  rw [h1]
  rfl

/-- Reading back the binding just written to the tracker. -/
theorem trackerGet_trackerSet_self (t : List (String × Nat)) (sid : String)
    (n : Nat) : trackerGet (trackerSet t sid n) sid = n := by
  induction t with
  | nil => simp [trackerGet, trackerSet]
  | cons p rest ih =>
      by_cases h : p.1 = sid
      · simp [trackerGet, trackerSet, h]
      · simp [trackerGet, trackerSet, h, ih]

/-- Writing one session's counter leaves every other session's reading
unchanged. -/
theorem trackerGet_trackerSet_ne (t : List (String × Nat)) (sid sid' : String)
    (n : Nat) (h : sid' ≠ sid) :
    trackerGet (trackerSet t sid n) sid' = trackerGet t sid' := by
  induction t with
  | nil => simp [trackerGet, trackerSet, Ne.symm h]
  | cons p rest ih =>
      by_cases hp : p.1 = sid
      · simp [trackerGet, trackerSet, hp, h, Ne.symm h]
      · by_cases hp' : p.1 = sid'
        · simp [trackerGet, trackerSet, hp, hp', h, Ne.symm h]
        · simp [trackerGet, trackerSet, hp, hp', ih]

/-- A contiguous run of the right part of a concatenation is a contiguous
run of the whole. -/
theorem listHasSub_append_right (a b p : List Char)
    (h : listHasSub b p = true) : listHasSub (a ++ b) p = true := by
  unfold listHasSub at h ⊢
  rw [List.any_eq_true] at h ⊢
  obtain ⟨i, hi, hpre⟩ := h
  refine ⟨a.length + i, ?_, ?_⟩
  · rw [List.mem_range] at hi ⊢
    rw [List.length_append]
    omega
  · have hdrop : (a ++ b).drop (a.length + i) = b.drop i := by
      rw [List.drop_append_eq_append_drop,
        List.drop_eq_nil_of_le (by omega : a.length ≤ a.length + i)]
      simp
    rw [hdrop]
    exact hpre

/-- `containsLower` over a concatenation, witnessed in the right part. -/
theorem containsLower_append_right (a b : String) (pat : String)
    (h : containsLower b pat = true) : containsLower (a ++ b) pat = true := by
  unfold containsLower at h ⊢
  rw [String.data_append, List.map_append]
  exact listHasSub_append_right _ _ _ h

/-! ## Claims -/

/-- C9: for every empty or whitespace-only input, every detector
configuration and every oracle behaviour, `detect_emotion` short-circuits
to the canonical default Neutral result before either model is consulted:
label `Neutral`, confidence `1`, and a distribution with all mass on
`Neutral`. -/
theorem c9_blank_input_default (cfg : DetectorConfig) (s : String)
    (hf : Option (List (String × ℚ))) (remote : Option String)
    (h : s.data.all Char.isWhitespace = true) :
    detect_emotion cfg s hf remote = some default_emotion ∧
    default_emotion.label = "Neutral" ∧
    default_emotion.confidence = 1 ∧
    default_emotion.scores =
      [("Happy", 0), ("Neutral", 1), ("Confused", 0), ("Frustrated", 0), ("Sad", 0)] := by
  refine ⟨?_, rfl, rfl, rfl⟩
  have hs : pyStrip s = "" := pyStrip_eq_empty s h
  simp [detect_emotion, hs]

/-- Witness for C9 at the whitespace-only input `" "`. -/
theorem c9_blank_input_default_witness :
    (" ".data.all Char.isWhitespace = true) ∧
    detect_emotion ⟨true, 3 / 10, true, true⟩ " " none none = some default_emotion :=
  ⟨by decide, (c9_blank_input_default ⟨true, 3 / 10, true, true⟩ " " none none (by decide)).1⟩

/-- C1 (code bug): with the HF pipeline unavailable, the Gemini fallback
enabled and the model configured, but the remote call failing, the
`return self._detect_with_gemini(...)` at line 108 of `emotion_detector.py`
forwards the internal `None` to the caller — the "Ultimate fallback: return
neutral" at line 113 is unreachable on this path, so `detect_emotion` is not
total and returns no `EmotionResult` at all. -/
theorem c1_detect_emotion_returns_none :
    detect_emotion ⟨true, 3 / 10, false, true⟩ "hello" none none = none := by
  decide

/-- C10: when no remote LLM model is configured, the adapter returns the
base answer verbatim — no prefix, no enhancement — for every emotion
including `Frustrated`, and leaves the frustration tracker untouched. -/
theorem c10_no_model_identity (emotion baseAnswer userMessage : String)
    (sessionId : Option String) (rewriteReply : Option String)
    (t : List (String × Nat)) :
    adjust_response_based_on_emotion false emotion baseAnswer userMessage
      sessionId rewriteReply t = ⟨baseAnswer, t⟩ := by
  simp [adjust_response_based_on_emotion]

/-- The combined parser's confidence is untouched by lines that do not begin
with `CONFIDENCE:`. -/
theorem combined_foldl_confidence (lines : List String)
    (st : CombinedParseState)
    (h : ∀ line ∈ lines, pyStartsWith line "CONFIDENCE:" = false) :
    (lines.foldl combinedStep st).confidence = st.confidence := by
  induction lines generalizing st with
  | nil => rfl
  | cons l ls ih =>
      have hl : pyStartsWith l "CONFIDENCE:" = false := h l (by simp)
      have htail : ∀ line ∈ ls, pyStartsWith line "CONFIDENCE:" = false :=
        fun x hx => h x (by simp [hx])
      rw [List.foldl_cons, ih _ htail]
      unfold combinedStep
      split_ifs <;> simp_all

/-- The combined parser's response accumulator stays empty while no line
begins with `RESPONSE:`. -/
theorem combined_foldl_response_empty (lines : List String)
    (st : CombinedParseState) (hst : st.response = "")
    (h : ∀ line ∈ lines, pyStartsWith line "RESPONSE:" = false) :
    (lines.foldl combinedStep st).response = "" := by
  induction lines generalizing st with
  | nil => exact hst
  | cons l ls ih =>
      have hl : pyStartsWith l "RESPONSE:" = false := h l (by simp)
      have htail : ∀ line ∈ ls, pyStartsWith line "RESPONSE:" = false :=
        fun x hx => h x (by simp [hx])
      rw [List.foldl_cons]
      refine ih _ ?_ htail
      unfold combinedStep
      split_ifs <;> simp_all

/-- An entirely stripped-empty input leaves the combined parse loop in its
initial state. -/
theorem combined_foldl_of_strip_empty (raw : String) (h : pyStrip raw = "") :
    (pyLines (pyStrip raw)).foldl combinedStep ⟨"", "Neutral", 0⟩ =
      ⟨"", "Neutral", 0⟩ := by
  rw [h]
  decide

/-- C3 (counterexample): after a `RESPONSE:` marker the parser does not
append a subsequent line that itself begins with a marker — on
`"RESPONSE: a\nEMOTION: Sad"` the extracted response is `"a"`, not the
claimed `"a\nEMOTION: Sad"`. -/
theorem c3_counterexample :
    (combinedParse "RESPONSE: a\nEMOTION: Sad").response = "a" ∧
    (combinedParse "RESPONSE: a\nEMOTION: Sad").response ≠ "a\nEMOTION: Sad" := by
  decide

/-- C3 (amended): a `RESPONSE:` line restarts the accumulator with its
stripped remainder; a subsequent line is appended (with a newline) only when
it does not itself begin with the `EMOTION:`, `CONFIDENCE:` or `RESPONSE:`
markers — such lines are re-processed as markers — and the accumulator is
non-empty; the final response is empty exactly when the stripped raw text is
empty (when the accumulator ends empty, in particular when no `RESPONSE:`
marker occurred, the entire stripped text is used verbatim); the well-formed
input of the claim parses to `("line1\nline2", Sad, 0.7)`. -/
theorem c3_amended :
    ((combinedParse "EMOTION: Sad\nCONFIDENCE: 0.7\nRESPONSE: line1\nline2").response
        = "line1\nline2" ∧
      (combinedParse "EMOTION: Sad\nCONFIDENCE: 0.7\nRESPONSE: line1\nline2").label
        = "Sad" ∧
      (combinedParse "EMOTION: Sad\nCONFIDENCE: 0.7\nRESPONSE: line1\nline2").confidence
        = 7 / 10) ∧
    (∀ st line, pyStartsWith line "EMOTION:" = false →
        pyStartsWith line "CONFIDENCE:" = false →
        pyStartsWith line "RESPONSE:" = true →
        combinedStep st line = { st with response := pyStrip (pyDrop line 9) }) ∧
    (∀ st line, pyStartsWith line "EMOTION:" = false →
        pyStartsWith line "CONFIDENCE:" = false →
        pyStartsWith line "RESPONSE:" = false →
        st.response ≠ "" →
        combinedStep st line =
          { st with response := st.response ++ "\n" ++ line }) ∧
    (∀ raw, ((combinedParse raw).response = "" ↔ pyStrip raw = "")) ∧
    (∀ raw, (∀ line ∈ pyLines (pyStrip raw),
        pyStartsWith line "RESPONSE:" = false) →
        (combinedParse raw).response = pyStrip raw) := by
  refine ⟨⟨by decide, by decide, ?_⟩, ?_, ?_, ?_, ?_⟩
  · have h : (combinedParse
        "EMOTION: Sad\nCONFIDENCE: 0.7\nRESPONSE: line1\nline2").confidence =
        (1 : ℚ) * ((digitsVal ['0'] : ℚ) +
          (digitsVal ['7'] : ℚ) / ((10 ^ ['7'].length : ℕ) : ℚ)) := rfl
    rw [h]
    norm_num [digitsVal, show ('0'.toNat = 48) from rfl, show ('7'.toNat = 55) from rfl]
  · intro st line h1 h2 h3
    simp [combinedStep, h1, h2, h3]
  · intro st line h1 h2 h3 h4
    simp [combinedStep, h1, h2, h3, h4]
  · intro raw
    simp only [combinedParse]
    by_cases hr : ((pyLines (pyStrip raw)).foldl combinedStep
        ⟨"", "Neutral", 0⟩).response = ""
    · simp [hr]
    · rw [if_neg hr]
      constructor
      · intro hfalse
        exact absurd hfalse hr
      · intro hstrip
        exact absurd (congrArg CombinedParseState.response
          (combined_foldl_of_strip_empty raw hstrip)) hr
  · intro raw hnone
    simp only [combinedParse]
    have hresp := combined_foldl_response_empty (pyLines (pyStrip raw))
      ⟨"", "Neutral", 0⟩ rfl hnone
    simp [hresp]

/-- Witness for C3 (amended) at concrete lines and a marker-free raw text. -/
theorem c3_amended_witness :
    combinedStep ⟨"x", "Neutral", 0⟩ "more" =
      { CombinedParseState.mk "x" "Neutral" 0 with
        response := "x" ++ "\n" ++ "more" } ∧
    (combinedParse "no markers here").response = pyStrip "no markers here" :=
  ⟨c3_amended.2.2.1 ⟨"x", "Neutral", 0⟩ "more"
      (by decide) (by decide) (by decide) (by decide),
   c3_amended.2.2.2.2 "no markers here" (by decide)⟩

/-- C4 (counterexample): on the reply `"EMOTION: Excited"` the combined
parser keeps the unknown label `"Excited"` — no validation against the fixed
5-set happens — and, with no `CONFIDENCE:` line present, the confidence
stays at its `0.0` initialization rather than the claimed `0.5` default. -/
theorem c4_counterexample :
    (combinedParse "EMOTION: Excited").label = "Excited" ∧
    (combinedParse "EMOTION: Excited").confidence = 0 ∧
    (combinedParse "EMOTION: Excited").label ≠ "Neutral" ∧
    (combinedParse "EMOTION: Excited").confidence ≠ 1 / 2 := by
  refine ⟨by decide, by decide, by decide, ?_⟩
  have h : (combinedParse "EMOTION: Excited").confidence = 0 := by decide
  rw [h]
  norm_num

/-- C4 (amended): the combined parser passes the emotion label through the
secondary Arabic→English map and keeps it unvalidated — a label outside the
fixed 5-set propagates unchanged; the confidence defaults to `0.5` only when
a `CONFIDENCE:` line is present but its value fails float parsing, and stays
at its `0.0` initialization when no `CONFIDENCE:` line occurs; in particular
`"just some text"` parses to `("just some text", Neutral, 0.0)`. -/
theorem c4_amended :
    (∀ st line, pyStartsWith line "EMOTION:" = true →
        combinedStep st line =
          { st with label := arabicEmotionMap (pyStrip (pyDrop line 8)) }) ∧
    (∀ st line, pyStartsWith line "EMOTION:" = false →
        pyStartsWith line "CONFIDENCE:" = true →
        parseFloat? (pyStrip (pyDrop line 11)) = none →
        combinedStep st line = { st with confidence := 1 / 2 }) ∧
    (∀ raw, (∀ line ∈ pyLines (pyStrip raw),
        pyStartsWith line "CONFIDENCE:" = false) →
        (combinedParse raw).confidence = 0) ∧
    combinedParse "just some text" = ⟨"just some text", "Neutral", 0⟩ := by
  refine ⟨?_, ?_, ?_, by decide⟩
  · intro st line h1
    simp [combinedStep, h1]
  · intro st line h1 h2 h3
    simp [combinedStep, h1, h2, h3]
  · intro raw h
    simp only [combinedParse]
    have hconf := combined_foldl_confidence (pyLines (pyStrip raw))
      ⟨"", "Neutral", 0⟩ h
    split_ifs <;> simpa using hconf

/-- Witness for C4 (amended) at a failing `CONFIDENCE:` line and a
marker-free raw text. -/
theorem c4_amended_witness :
    combinedStep ⟨"", "Neutral", 0⟩ "CONFIDENCE: abc" =
      { CombinedParseState.mk "" "Neutral" 0 with confidence := 1 / 2 } ∧
    (combinedParse "hello there").confidence = 0 :=
  ⟨c4_amended.2.1 ⟨"", "Neutral", 0⟩ "CONFIDENCE: abc"
      (by decide) (by decide) (by decide),
   c4_amended.2.2.1 "hello there" (by decide)⟩

/-- The remote parser's confidence stays `0.5` when every `CONFIDENCE:` line
(if any) fails float parsing. -/
theorem gemini_foldl_confidence (lines : List String) (st : String × ℚ)
    (hst : st.2 = 1 / 2)
    (h : ∀ line ∈ lines, pyStartsWith line "CONFIDENCE:" = true →
      parseFloat? (pyStrip (pyDrop line 11)) = none) :
    (lines.foldl geminiStep st).2 = 1 / 2 := by
  induction lines generalizing st with
  | nil => exact hst
  | cons l ls ih =>
      have hl := h l (by simp)
      have htail : ∀ line ∈ ls, pyStartsWith line "CONFIDENCE:" = true →
          parseFloat? (pyStrip (pyDrop line 11)) = none :=
        fun x hx => h x (by simp [hx])
      rw [List.foldl_cons]
      refine ih _ ?_ htail
      unfold geminiStep
      split_ifs with h1 h2
      · exact hst
      · rw [hl h2]
      · exact hst

/-- C5: the remote-fallback reply parser treats lines independently of their
order — lines beginning with neither marker are ignored, and an `EMOTION:`
line commutes with a `CONFIDENCE:` line since they update disjoint state —
a reported label outside the fixed 5-set (such as `"EMOTION: Excited"`) is
forced to `Neutral`, a missing or unparsable `CONFIDENCE:` value leaves the
default `0.5`, and the returned scores are the degenerate distribution in
which the dominant label carries the confidence and each other label carries
`(1 - confidence) / 4`. -/
theorem c5_remote_parse_rules :
    (∀ st line, pyStartsWith line "EMOTION:" = false →
        pyStartsWith line "CONFIDENCE:" = false → geminiStep st line = st) ∧
    (∀ st e c, pyStartsWith e "EMOTION:" = true →
        pyStartsWith c "EMOTION:" = false →
        pyStartsWith c "CONFIDENCE:" = true →
        geminiStep (geminiStep st e) c = geminiStep (geminiStep st c) e) ∧
    (∀ reply, (geminiRawParse reply).1 ∉ TARGET_EMOTIONS →
        (parseGeminiReply reply).label = "Neutral") ∧
    ((parseGeminiReply "EMOTION: Excited").label = "Neutral") ∧
    (∀ reply, (∀ line ∈ pyLines (pyStrip reply),
        pyStartsWith line "CONFIDENCE:" = true →
        parseFloat? (pyStrip (pyDrop line 11)) = none) →
        (parseGeminiReply reply).confidence = 1 / 2) ∧
    (∀ reply, (parseGeminiReply reply).scores =
        TARGET_EMOTIONS.map (fun e =>
          (e, if e = (parseGeminiReply reply).label
              then (parseGeminiReply reply).confidence
              else (1 - (parseGeminiReply reply).confidence) / 4))) := by
  refine ⟨?_, ?_, ?_, by decide, ?_, ?_⟩
  · intro st line h1 h2
    simp [geminiStep, h1, h2]
  · intro st e c he hce hcc
    simp [geminiStep, he, hce, hcc]
  · intro reply hout
    simp [parseGeminiReply, hout]
  · intro reply h
    have := gemini_foldl_confidence (pyLines (pyStrip reply)) ("Neutral", 1 / 2) rfl h
    simpa [parseGeminiReply, geminiRawParse] using this
  · intro reply
    rfl

/-- Witness for C5: a markerless line is ignored, and a reply whose only
`CONFIDENCE:` line is unparsable keeps the `0.5` default. -/
theorem c5_remote_parse_rules_witness :
    geminiStep ("Neutral", 1 / 2) "hello" = ("Neutral", 1 / 2) ∧
    (parseGeminiReply "EMOTION: Sad\nCONFIDENCE: abc").confidence = 1 / 2 :=
  ⟨c5_remote_parse_rules.1 ("Neutral", 1 / 2) "hello" (by decide) (by decide),
   c5_remote_parse_rules.2.2.2.2.1 "EMOTION: Sad\nCONFIDENCE: abc" (by decide)⟩

/-- With the model configured, the tracker the adapter leaves behind is
exactly `_get_emotion_prompt`'s update — whether or not the remote rewrite
succeeds, since the update happens before `generate_content` is called. -/
theorem adjust_tracker_eq (emotion base msg : String) (sids : Option String)
    (rewriteReply : Option String) (t : List (String × Nat)) :
    (adjust_response_based_on_emotion true emotion base msg sids
        rewriteReply t).tracker = getEmotionPromptTracker emotion sids t := by
  cases rewriteReply <;> simp [adjust_response_based_on_emotion]

/-- C6: with the remote model configured, every invocation of the tone
adapter with emotion `Frustrated` for a session increments that session's
frustration counter by exactly 1 (so consecutive Frustrated adaptations
raise `get_frustration_level` by 1 each time), an invocation with emotion
`Happy` leaves the tracker unchanged, and no invocation ever decreases any
session's counter. -/
theorem c6_frustration_monotone (t : List (String × Nat)) (sid : String)
    (base msg : String) (rewriteReply : Option String) (hsid : sid ≠ "") :
    get_frustration_level
        (adjust_response_based_on_emotion true "Frustrated" base msg (some sid)
          rewriteReply t).tracker sid
      = get_frustration_level t sid + 1 ∧
    (adjust_response_based_on_emotion true "Happy" base msg (some sid)
        rewriteReply t).tracker = t ∧
    (∀ emotion sid',
      get_frustration_level t sid' ≤
        get_frustration_level
          (adjust_response_based_on_emotion true emotion base msg (some sid)
            rewriteReply t).tracker sid') := by
  refine ⟨?_, ?_, ?_⟩
  · rw [adjust_tracker_eq]
    simp only [getEmotionPromptTracker, if_pos rfl, hsid, ite_true, ne_eq,
      not_false_iff]
    simpa [get_frustration_level, getEmotionPromptTracker, hsid] using
      trackerGet_trackerSet_self t sid (trackerGet t sid + 1)
  · rw [adjust_tracker_eq]
    simp [getEmotionPromptTracker]
  · intro emotion sid'
    rw [adjust_tracker_eq]
    by_cases he : emotion = "Frustrated"
    · subst he
      simp only [getEmotionPromptTracker, if_pos rfl, hsid, ne_eq,
        not_false_iff, ite_true]
      by_cases hs : sid' = sid
      · subst hs
        simp [get_frustration_level, hsid,
          trackerGet_trackerSet_self t sid' (trackerGet t sid' + 1)]
      · simp [get_frustration_level, hsid,
          trackerGet_trackerSet_ne t sid sid' (trackerGet t sid + 1) hs]
    · simp [getEmotionPromptTracker, he]

/-- Witness for C6 at a fresh session `"s1"` over the empty tracker. -/
theorem c6_frustration_monotone_witness :
    get_frustration_level
        (adjust_response_based_on_emotion true "Frustrated" "b" "m" (some "s1")
          none []).tracker "s1" = get_frustration_level [] "s1" + 1 :=
  (c6_frustration_monotone [] "s1" "b" "m" none (by decide)).1

/-- For a session at frustration level ≥ 2, a Frustrated enhancement on text
mentioning neither "contact" nor "representative" appends the escalation
offer sentence. -/
theorem add_enh_frustrated_append (answer msg sid : String)
    (t : List (String × Nat)) (hsid : sid ≠ "") (hlevel : 2 ≤ trackerGet t sid)
    (hc : containsLower answer "contact" = false)
    (hr : containsLower answer "representative" = false) :
    add_emotion_enhancements answer "Frustrated" msg (some sid) t =
      answer ++ escalationOffer := by
  simp [add_emotion_enhancements, hsid, hlevel, hc, hr]

/-- C7: for every session whose frustration counter has reached 2 or more, a
Frustrated adaptation whose rewritten text contains neither "contact" nor
"representative" (case-insensitively) gets the escalation offer sentence
appended, so the returned text mentions "contact"; through the full adapter
call this holds as soon as the counter was at least 1 before the call, since
the call itself increments it to at least 2 before the enhancement check. -/
theorem c7_escalation (answer msg sid : String) (t : List (String × Nat))
    (hsid : sid ≠ "") (hlevel : 2 ≤ trackerGet t sid)
    (hc : containsLower answer "contact" = false)
    (hr : containsLower answer "representative" = false) :
    add_emotion_enhancements answer "Frustrated" msg (some sid) t =
      answer ++ escalationOffer ∧
    containsLower
      (add_emotion_enhancements answer "Frustrated" msg (some sid) t)
      "contact" = true ∧
    (∀ t' base, 1 ≤ trackerGet t' sid →
      containsLower
        (adjust_response_based_on_emotion true "Frustrated" base msg (some sid)
          (some answer) t').text "contact" = true) := by
  have happ := add_enh_frustrated_append answer msg sid t hsid hlevel hc hr
  have hesc : containsLower escalationOffer "contact" = true := by decide
  refine ⟨happ, ?_, ?_⟩
  · rw [happ]
    exact containsLower_append_right answer escalationOffer "contact" hesc
  · intro t' base hl
    have htext : (adjust_response_based_on_emotion true "Frustrated" base msg
        (some sid) (some answer) t').text =
        add_emotion_enhancements answer "Frustrated" msg (some sid)
          (getEmotionPromptTracker "Frustrated" (some sid) t') := by
      simp [adjust_response_based_on_emotion]
    rw [htext]
    have hlevel2 : 2 ≤ trackerGet
        (getEmotionPromptTracker "Frustrated" (some sid) t') sid := by
      simp only [getEmotionPromptTracker, if_pos rfl, hsid, ne_eq,
        not_false_iff, ite_true]
      rw [trackerGet_trackerSet_self]
      omega
    rw [add_enh_frustrated_append answer msg sid _ hsid hlevel2 hc hr]
    exact containsLower_append_right answer escalationOffer "contact" hesc

/-- Witness for C7 at a concrete session already at level 2. -/
theorem c7_escalation_witness :
    add_emotion_enhancements "ok" "Frustrated" "m" (some "s1") [("s1", 2)] =
      "ok" ++ escalationOffer :=
  (c7_escalation "ok" "m" "s1" [("s1", 2)]
    (by decide) (by decide) (by decide) (by decide)).1

set_option maxHeartbeats 1600000 in
/-- Python's `max` over the five-entry dict: the fold with strict comparison
returns the first item attaining the maximum, characterized by the nested
conditional in the fixed iteration order, together with its value and the
bound over all five values. -/
theorem argmax5 (lA lB lC lD lE : String) (a b c d e : ℚ) :
    (argmaxBySnd (lA, a) [(lB, b), (lC, c), (lD, d), (lE, e)]).1 =
      (if b ≤ a ∧ c ≤ a ∧ d ≤ a ∧ e ≤ a then lA
       else if c ≤ b ∧ d ≤ b ∧ e ≤ b then lB
       else if d ≤ c ∧ e ≤ c then lC
       else if e ≤ d then lD
       else lE) ∧
    (argmaxBySnd (lA, a) [(lB, b), (lC, c), (lD, d), (lE, e)]).2 =
      (if b ≤ a ∧ c ≤ a ∧ d ≤ a ∧ e ≤ a then a
       else if c ≤ b ∧ d ≤ b ∧ e ≤ b then b
       else if d ≤ c ∧ e ≤ c then c
       else if e ≤ d then d
       else e) ∧
    a ≤ (argmaxBySnd (lA, a) [(lB, b), (lC, c), (lD, d), (lE, e)]).2 ∧
    b ≤ (argmaxBySnd (lA, a) [(lB, b), (lC, c), (lD, d), (lE, e)]).2 ∧
    c ≤ (argmaxBySnd (lA, a) [(lB, b), (lC, c), (lD, d), (lE, e)]).2 ∧
    d ≤ (argmaxBySnd (lA, a) [(lB, b), (lC, c), (lD, d), (lE, e)]).2 ∧
    e ≤ (argmaxBySnd (lA, a) [(lB, b), (lC, c), (lD, d), (lE, e)]).2 := by
  simp only [argmaxBySnd, List.foldl_cons, List.foldl_nil]
  dsimp only
  refine ⟨?_, ?_, ?_, ?_, ?_, ?_, ?_⟩ <;>
    (split_ifs <;> dsimp only at * <;>
      first
        | rfl
        | linarith
        | (simp only [not_and_or, not_lt, not_le] at *
           casesm* _ ∨ _, _ ∧ _ <;> linarith))

/-- The normalized score dict, written out entrywise. -/
theorem normScores_eq (preds : List (String × ℚ)) :
    normScores preds =
      [("Happy", normValue preds "Happy"), ("Neutral", normValue preds "Neutral"),
       ("Confused", normValue preds "Confused"),
       ("Frustrated", normValue preds "Frustrated"),
       ("Sad", normValue preds "Sad")] := by
  unfold normScores normValue rawScores TARGET_EMOTIONS
  by_cases h : 0 < totalScore preds <;> simp [h]

/-- The total is the sum of the five accumulated scores. -/
theorem totalScore_eq (preds : List (String × ℚ)) :
    totalScore preds =
      rawScore preds "Happy" + rawScore preds "Neutral" +
      rawScore preds "Confused" + rawScore preds "Frustrated" +
      rawScore preds "Sad" := by
  simp [totalScore, rawScores, TARGET_EMOTIONS]
  ring

/-- Accumulated scores are nonnegative when the native scores are. -/
theorem rawScore_nonneg (preds : List (String × ℚ)) (t : String)
    (h : ∀ p ∈ preds, 0 ≤ p.2) : 0 ≤ rawScore preds t := by
  unfold rawScore
  refine List.sum_nonneg ?_
  intro x hx
  simp only [List.mem_map, List.mem_filter] at hx
  obtain ⟨p, ⟨hp, _⟩, rfl⟩ := hx
  exact h p hp

/-- Every normalized score lies in `[0, 1]` for the five target labels. -/
theorem normValue_bounds (preds : List (String × ℚ))
    (hpos : ∀ p ∈ preds, 0 ≤ p.2) (t : String) (ht : t ∈ TARGET_EMOTIONS) :
    0 ≤ normValue preds t ∧ normValue preds t ≤ 1 := by
  have hH := rawScore_nonneg preds "Happy" hpos
  have hN := rawScore_nonneg preds "Neutral" hpos
  have hC := rawScore_nonneg preds "Confused" hpos
  have hF := rawScore_nonneg preds "Frustrated" hpos
  have hS := rawScore_nonneg preds "Sad" hpos
  have htot := totalScore_eq preds
  have htn := rawScore_nonneg preds t hpos
  constructor
  · unfold normValue
    split_ifs with h
    · exact div_nonneg htn h.le
    · exact htn
  · unfold normValue
    split_ifs with h
    · rw [div_le_one h]
      fin_cases ht <;> linarith
    · fin_cases ht <;> linarith

/-- The classifier's scores list is the normalized dict (definitionally). -/
theorem detect_with_hf_model_scores (preds : List (String × ℚ)) :
    (detect_with_hf_model preds).scores = normScores preds := rfl

/-- The classifier's label and confidence are the fold-argmax over the
normalized dict, entry `Happy` first. -/
theorem detect_with_hf_model_dom (preds : List (String × ℚ)) :
    (detect_with_hf_model preds).label =
      (argmaxBySnd ("Happy", normValue preds "Happy")
        [("Neutral", normValue preds "Neutral"),
         ("Confused", normValue preds "Confused"),
         ("Frustrated", normValue preds "Frustrated"),
         ("Sad", normValue preds "Sad")]).1 ∧
    (detect_with_hf_model preds).confidence =
      (argmaxBySnd ("Happy", normValue preds "Happy")
        [("Neutral", normValue preds "Neutral"),
         ("Confused", normValue preds "Confused"),
         ("Frustrated", normValue preds "Frustrated"),
         ("Sad", normValue preds "Sad")]).2 := by
  unfold detect_with_hf_model
  rw [normScores_eq]
  exact ⟨rfl, rfl⟩

/-- C2: the local classifier remaps each native label by the fixed table,
accumulates additively onto the five target labels, renormalizes so the
values sum to exactly 1 unless the raw total is 0 (in which case the
distribution is left all-zero), and returns as label the arg-max of the
distribution with ties broken first-seen in the fixed iteration order
Happy, Neutral, Confused, Frustrated, Sad, with confidence equal to that
arg-max value (hence an upper bound of all five values). -/
theorem c2_classifier (preds : List (String × ℚ))
    (hpos : ∀ p ∈ preds, 0 ≤ p.2) :
    (EMOTION_MAPPING "joy" = "Happy" ∧ EMOTION_MAPPING "neutral" = "Neutral" ∧
     EMOTION_MAPPING "surprise" = "Confused" ∧
     EMOTION_MAPPING "anger" = "Frustrated" ∧
     EMOTION_MAPPING "sadness" = "Sad" ∧ EMOTION_MAPPING "fear" = "Confused" ∧
     EMOTION_MAPPING "disgust" = "Frustrated") ∧
    ((detect_with_hf_model preds).scores =
      TARGET_EMOTIONS.map (fun t => (t, normValue preds t))) ∧
    (totalScore preds ≠ 0 →
      ((detect_with_hf_model preds).scores.map Prod.snd).sum = 1) ∧
    (totalScore preds = 0 →
      ∀ p ∈ (detect_with_hf_model preds).scores, p.2 = 0) ∧
    ((detect_with_hf_model preds).label =
      (if normValue preds "Neutral" ≤ normValue preds "Happy" ∧
          normValue preds "Confused" ≤ normValue preds "Happy" ∧
          normValue preds "Frustrated" ≤ normValue preds "Happy" ∧
          normValue preds "Sad" ≤ normValue preds "Happy" then "Happy"
       else if normValue preds "Confused" ≤ normValue preds "Neutral" ∧
          normValue preds "Frustrated" ≤ normValue preds "Neutral" ∧
          normValue preds "Sad" ≤ normValue preds "Neutral" then "Neutral"
       else if normValue preds "Frustrated" ≤ normValue preds "Confused" ∧
          normValue preds "Sad" ≤ normValue preds "Confused" then "Confused"
       else if normValue preds "Sad" ≤ normValue preds "Frustrated" then
          "Frustrated"
       else "Sad")) ∧
    ((detect_with_hf_model preds).confidence =
      (if normValue preds "Neutral" ≤ normValue preds "Happy" ∧
          normValue preds "Confused" ≤ normValue preds "Happy" ∧
          normValue preds "Frustrated" ≤ normValue preds "Happy" ∧
          normValue preds "Sad" ≤ normValue preds "Happy" then
          normValue preds "Happy"
       else if normValue preds "Confused" ≤ normValue preds "Neutral" ∧
          normValue preds "Frustrated" ≤ normValue preds "Neutral" ∧
          normValue preds "Sad" ≤ normValue preds "Neutral" then
          normValue preds "Neutral"
       else if normValue preds "Frustrated" ≤ normValue preds "Confused" ∧
          normValue preds "Sad" ≤ normValue preds "Confused" then
          normValue preds "Confused"
       else if normValue preds "Sad" ≤ normValue preds "Frustrated" then
          normValue preds "Frustrated"
       else normValue preds "Sad")) ∧
    (∀ p ∈ (detect_with_hf_model preds).scores,
      p.2 ≤ (detect_with_hf_model preds).confidence) := by
  have hdom := detect_with_hf_model_dom preds
  have ham := argmax5 "Happy" "Neutral" "Confused" "Frustrated" "Sad"
    (normValue preds "Happy") (normValue preds "Neutral")
    (normValue preds "Confused") (normValue preds "Frustrated")
    (normValue preds "Sad")
  have hH := rawScore_nonneg preds "Happy" hpos
  have hN := rawScore_nonneg preds "Neutral" hpos
  have hC := rawScore_nonneg preds "Confused" hpos
  have hF := rawScore_nonneg preds "Frustrated" hpos
  have hS := rawScore_nonneg preds "Sad" hpos
  have htot := totalScore_eq preds
  refine ⟨⟨rfl, rfl, rfl, rfl, rfl, rfl, rfl⟩, ?_, ?_, ?_, ?_, ?_, ?_⟩
  · rw [detect_with_hf_model_scores, normScores_eq]
    rfl
  · intro hne
    have hpos2 : 0 < totalScore preds := by
      rcases lt_or_eq_of_le (by linarith : (0 : ℚ) ≤ totalScore preds) with h | h
      · exact h
      · exact absurd h.symm hne
    rw [detect_with_hf_model_scores, normScores_eq]
    have hv : ∀ t, normValue preds t = rawScore preds t / totalScore preds := by
      intro t
      unfold normValue
      rw [if_pos hpos2]
    simp only [List.map_cons, List.map_nil, List.sum_cons, List.sum_nil, hv]
    rw [show rawScore preds "Happy" / totalScore preds +
        (rawScore preds "Neutral" / totalScore preds +
          (rawScore preds "Confused" / totalScore preds +
            (rawScore preds "Frustrated" / totalScore preds +
              (rawScore preds "Sad" / totalScore preds + 0)))) =
        (rawScore preds "Happy" + rawScore preds "Neutral" +
          rawScore preds "Confused" + rawScore preds "Frustrated" +
          rawScore preds "Sad") / totalScore preds from by ring]
    rw [← htot]
    exact div_self hne
  · intro hzero
    have hallz : rawScore preds "Happy" = 0 ∧ rawScore preds "Neutral" = 0 ∧
        rawScore preds "Confused" = 0 ∧ rawScore preds "Frustrated" = 0 ∧
        rawScore preds "Sad" = 0 := by
      refine ⟨by linarith, by linarith, by linarith, by linarith, by linarith⟩
    intro p hp
    rw [detect_with_hf_model_scores, normScores_eq] at hp
    have hnv : ∀ t, t ∈ TARGET_EMOTIONS → normValue preds t = rawScore preds t := by
      intro t _
      unfold normValue
      rw [if_neg (by rw [hzero]; exact lt_irrefl 0)]
    simp only [List.mem_cons, List.mem_singleton] at hp
    obtain ⟨h1, h2, h3, h4, h5⟩ := hallz
    rcases hp with rfl | rfl | rfl | rfl | rfl | h
    · rw [hnv "Happy" (by decide)]; exact h1
    · rw [hnv "Neutral" (by decide)]; exact h2
    · rw [hnv "Confused" (by decide)]; exact h3
    · rw [hnv "Frustrated" (by decide)]; exact h4
    · rw [hnv "Sad" (by decide)]; exact h5
    · exact absurd h (List.not_mem_nil p)
  · rw [hdom.1]
    exact ham.1
  · rw [hdom.2]
    exact ham.2.1
  · intro p hp
    rw [detect_with_hf_model_scores, normScores_eq] at hp
    rw [hdom.2]
    simp only [List.mem_cons, List.mem_singleton] at hp
    rcases hp with rfl | rfl | rfl | rfl | rfl | h
    · exact ham.2.2.1
    · exact ham.2.2.2.1
    · exact ham.2.2.2.2.1
    · exact ham.2.2.2.2.2.1
    · exact ham.2.2.2.2.2.2
    · exact absurd h (List.not_mem_nil p)

/-- Witness for C2: on a concrete prediction set with positive total, the
normalized distribution sums to exactly 1. -/
theorem c2_classifier_witness :
    ((detect_with_hf_model [("joy", (1 : ℚ) / 2), ("anger", (1 : ℚ) / 2)]).scores.map
      Prod.snd).sum = 1 :=
  (c2_classifier [("joy", (1 : ℚ) / 2), ("anger", (1 : ℚ) / 2)]
    (by
      intro p hp
      simp only [List.mem_cons, List.mem_singleton] at hp
      rcases hp with rfl | rfl | h
      · norm_num
      · norm_num
      · exact absurd h (List.not_mem_nil p))).2.2.1
    (by
      rw [totalScore_eq]
      rw [show rawScore [("joy", (1 : ℚ) / 2), ("anger", (1 : ℚ) / 2)] "Happy" =
        (1 : ℚ) / 2 + 0 from rfl]
      rw [show rawScore [("joy", (1 : ℚ) / 2), ("anger", (1 : ℚ) / 2)] "Neutral" =
        (0 : ℚ) from rfl]
      rw [show rawScore [("joy", (1 : ℚ) / 2), ("anger", (1 : ℚ) / 2)] "Confused" =
        (0 : ℚ) from rfl]
      rw [show rawScore [("joy", (1 : ℚ) / 2), ("anger", (1 : ℚ) / 2)] "Frustrated" =
        (1 : ℚ) / 2 + 0 from rfl]
      rw [show rawScore [("joy", (1 : ℚ) / 2), ("anger", (1 : ℚ) / 2)] "Sad" =
        (0 : ℚ) from rfl]
      norm_num)

/-- The remote parser passes the reported confidence through unchanged
(definitionally, the result's confidence is the parsed pair's). -/
theorem parseGeminiReply_confidence (reply : String) :
    (parseGeminiReply reply).confidence = (geminiRawParse reply).2 := rfl

/-- The local classifier's confidence lies in `[0, 1]` whenever the native
scores are nonnegative. -/
theorem hf_confidence_bounds (preds : List (String × ℚ))
    (hpos : ∀ p ∈ preds, 0 ≤ p.2) :
    0 ≤ (detect_with_hf_model preds).confidence ∧
    (detect_with_hf_model preds).confidence ≤ 1 := by
  have hdom := (detect_with_hf_model_dom preds).2
  have ham := (argmax5 "Happy" "Neutral" "Confused" "Frustrated" "Sad"
    (normValue preds "Happy") (normValue preds "Neutral")
    (normValue preds "Confused") (normValue preds "Frustrated")
    (normValue preds "Sad")).2.1
  rw [hdom, ham]
  have bH := normValue_bounds preds hpos "Happy" (by decide)
  have bN := normValue_bounds preds hpos "Neutral" (by decide)
  have bC := normValue_bounds preds hpos "Confused" (by decide)
  have bF := normValue_bounds preds hpos "Frustrated" (by decide)
  have bS := normValue_bounds preds hpos "Sad" (by decide)
  split_ifs <;> exact ⟨by linarith [bH.1, bN.1, bC.1, bF.1, bS.1],
    by linarith [bH.2, bN.2, bC.2, bF.2, bS.2]⟩

/-- C8 (counterexample): when the remote reply reports the parsable float
`5.0` on its `CONFIDENCE:` line, the remote fallback's `EmotionResult`
carries confidence 5, outside the real interval `[0, 1]` — the value is
passed through unclamped. -/
theorem c8_counterexample :
    (parseGeminiReply "EMOTION: Happy\nCONFIDENCE: 5.0").confidence = 5 ∧
    ¬ ((parseGeminiReply "EMOTION: Happy\nCONFIDENCE: 5.0").confidence ≤ 1) := by
  have h : (parseGeminiReply "EMOTION: Happy\nCONFIDENCE: 5.0").confidence =
      (1 : ℚ) * ((digitsVal ['5'] : ℚ) +
        (digitsVal ['0'] : ℚ) / ((10 ^ ['0'].length : ℕ) : ℚ)) := rfl
  rw [h]
  norm_num [digitsVal, show ('5'.toNat = 53) from rfl,
    show ('0'.toNat = 48) from rfl]

/-- C8 (amended): every `EmotionResult` of the local classifier (on
nonnegative native predictions) or of the default path has confidence in
`[0, 1]`; the remote fallback passes the reported confidence through
unclamped — its result's confidence equals the parsed value (`0.5` default)
and lies in `[0, 1]` exactly when that value does; and under those provisos
every result the orchestrator returns has confidence in `[0, 1]`. -/
theorem c8_amended :
    (∀ preds, (∀ p ∈ preds, 0 ≤ p.2) →
      0 ≤ (detect_with_hf_model preds).confidence ∧
      (detect_with_hf_model preds).confidence ≤ 1) ∧
    (0 ≤ default_emotion.confidence ∧ default_emotion.confidence ≤ 1) ∧
    (∀ reply, (parseGeminiReply reply).confidence = (geminiRawParse reply).2) ∧
    (∀ cfg s hf remote r, detect_emotion cfg s hf remote = some r →
      (∀ preds, hf = some preds → ∀ p ∈ preds, 0 ≤ p.2) →
      (∀ rep, remote = some rep →
        0 ≤ (geminiRawParse rep).2 ∧ (geminiRawParse rep).2 ≤ 1) →
      0 ≤ r.confidence ∧ r.confidence ≤ 1) := by
  have hdefault : 0 ≤ default_emotion.confidence ∧
      default_emotion.confidence ≤ 1 := by
    constructor <;> norm_num [default_emotion]
  have hgem : ∀ cfg remote r, detect_with_gemini cfg remote = some r →
      (∀ rep, remote = some rep →
        0 ≤ (geminiRawParse rep).2 ∧ (geminiRawParse rep).2 ≤ 1) →
      0 ≤ r.confidence ∧ r.confidence ≤ 1 := by
    intro cfg remote r h hrem
    unfold detect_with_gemini at h
    split_ifs at h
    cases remote with
    | none => simp at h
    | some rep =>
        have h2 : parseGeminiReply rep = r := by simpa using h
        subst h2
        rw [parseGeminiReply_confidence]
        exact hrem rep rfl
  refine ⟨hf_confidence_bounds, hdefault, parseGeminiReply_confidence, ?_⟩
  intro cfg s hf remote r hdet hhf hrem
  by_cases hblank : pyStrip s = ""
  · simp only [detect_emotion, hblank, if_pos rfl] at hdet
    obtain rfl := Option.some.inj hdet
    exact hdefault
  · simp only [detect_emotion, if_neg hblank] at hdet
    by_cases hpipe : cfg.pipelineLoaded = true
    · rw [if_pos hpipe] at hdet
      cases hf with
      | some preds =>
          simp only at hdet
          by_cases hlow : (detect_with_hf_model preds).confidence <
              cfg.confidenceThreshold ∧ cfg.useGeminiFallback
          · rw [if_pos hlow] at hdet
            cases hg : detect_with_gemini cfg remote with
            | some g =>
                rw [hg] at hdet
                obtain rfl := Option.some.inj hdet
                exact hgem cfg remote _ hg hrem
            | none =>
                rw [hg] at hdet
                obtain rfl := Option.some.inj hdet
                exact hf_confidence_bounds preds (hhf preds rfl)
          · rw [if_neg hlow] at hdet
            obtain rfl := Option.some.inj hdet
            exact hf_confidence_bounds preds (hhf preds rfl)
      | none =>
          simp only at hdet
          by_cases huse : cfg.useGeminiFallback = true ∧ cfg.geminiLoaded = true
          · rw [if_pos (by exact_mod_cast huse)] at hdet
            exact hgem cfg remote r hdet hrem
          · rw [if_neg (by exact_mod_cast huse)] at hdet
            obtain rfl := Option.some.inj hdet
            exact hdefault
    · rw [if_neg hpipe] at hdet
      by_cases huse : cfg.useGeminiFallback = true ∧ cfg.geminiLoaded = true
      · rw [if_pos (by exact_mod_cast huse)] at hdet
        exact hgem cfg remote r hdet hrem
      · rw [if_neg (by exact_mod_cast huse)] at hdet
        obtain rfl := Option.some.inj hdet
        exact hdefault

/-- Witness for C8 (amended): the classifier confidence bound at a
one-prediction input, and the orchestrator bound on the blank-input path. -/
theorem c8_amended_witness :
    (0 ≤ (detect_with_hf_model [("joy", (1 : ℚ))]).confidence ∧
      (detect_with_hf_model [("joy", (1 : ℚ))]).confidence ≤ 1) ∧
    (0 ≤ default_emotion.confidence ∧ default_emotion.confidence ≤ 1) :=
  ⟨c8_amended.1 [("joy", 1)]
    (by
      intro p hp
      simp only [List.mem_singleton] at hp
      subst hp
      norm_num),
   c8_amended.2.1⟩

end Sadeem
